import Mathlib

/-!
Shallow embedding of the external-state reconciliation core of
src/pdf_vertview.py: file-identity fingerprints (FileIdentity),
reference-counted watch bookkeeping (MainWindow._add_watch /
MainWindow._remove_watch), rename recovery
(MainWindow._attempt_recover_renamed_file, MainWindow._find_identity_match,
MainWindow._handle_document_renamed, MainWindow._cleanup_document_path,
MainWindow.open_document_from_path, MainWindow._add_document_to_ui), and the
single-instance rendezvous endpoints (SingleInstanceHost._read_socket,
forward_paths_to_primary).

Modelling conventions:
- Python unbounded integers are Int (stat fields) or Nat (counters).
- A filesystem path is a list of components; normalize_path is modelled as
  the identity, i.e. the model works over already-normalized paths, and
  Path.parent is dropping the last component.
- Python dicts are association lists with unique keys kept via
  insert-after-erase; Python sets are duplicate-free lists.
- External effects (fitz document open, document.close, QFileSystemWatcher
  calls, directory listing) are modelled by an explicit environment record
  and by an event trace returned next to the new state.
-/

/-- Dictionary lookup: first value stored under key k (Python dict.get). -/
def alookup {α β : Type} [DecidableEq α] : List (α × β) → α → Option β
  | [], _ => none
  | e :: rest, k => if e.1 = k then some e.2 else alookup rest k

/-- Dictionary removal of every entry under key k (Python dict.pop(k, None)). -/
def apop {α β : Type} [DecidableEq α] : List (α × β) → α → List (α × β)
  | [], _ => []
  | e :: rest, k => if e.1 = k then apop rest k else e :: apop rest k

/-- Dictionary assignment d[k] = v. The entry order differs from CPython's
insertion order but lookup semantics agree. -/
def aset {α β : Type} [DecidableEq α] (m : List (α × β)) (k : α) (v : β) :
    List (α × β) :=
  (k, v) :: apop m k

/-- Set insertion (Python set.add / QFileSystemWatcher.addPath registration,
which ignores a path that is already registered). -/
def sinsert {α : Type} [DecidableEq α] (x : α) (l : List α) : List α :=
  if x ∈ l then l else x :: l

/-- Set removal (Python set.discard / QFileSystemWatcher.removePath,
which ignores a path that is not registered). -/
def sremove {α : Type} [DecidableEq α] (x : α) : List α → List α
  | [] => []
  | y :: rest => if y = x then sremove x rest else y :: sremove x rest

/-- A normalized filesystem path, as its list of components; the parent
directory is the path without its last component. -/
abbrev FsPath := List String

/-- Path.parent on a normalized path. -/
def parentPath (p : FsPath) : FsPath := p.dropLast

/-- FileIdentity (src/pdf_vertview.py lines 491-531): the stat fingerprint
(st_dev, st_ino with 0 when unavailable, st_size, st_mtime_ns). -/
structure FileIdentity where
  device : Int
  inode : Int
  size : Int
  mtime_ns : Int
deriving DecidableEq

/-- FileIdentity.matches (lines 520-531). The inode rule requires both
inodes truthy (non-zero) and the inode and device fields equal; note the
source never tests the device for zero. Otherwise equal size plus mtime_ns
within 1,000,000 nanoseconds. -/
def FileIdentity.matches (self other : FileIdentity) : Bool :=
  let inode_match : Bool :=
    decide (self.inode ≠ 0) && decide (other.inode ≠ 0) &&
      decide (self.inode = other.inode) && decide (self.device = other.device)
  if inode_match then true
  else if self.size ≠ other.size then false
  else decide (|self.mtime_ns - other.mtime_ns| ≤ 1000000)

/-- The watch bookkeeping of MainWindow: _watched_files (a set of file
paths), _watched_dirs (directory path to reference count, values only
stored when positive), and the set of paths currently registered with the
native QFileSystemWatcher (files and directories alike). -/
structure WatchState where
  watchedFiles : List FsPath
  watchedDirs : List (FsPath × Nat)
  native : List FsPath
deriving DecidableEq

/-- self._watched_dirs.get(directory, 0). -/
def dirCount (m : List (FsPath × Nat)) (d : FsPath) : Nat :=
  (alookup m d).getD 0

/-- MainWindow._add_watch (lines 2541-2557). The watcher.addPath calls are
fail-soft in the source (try/except pass); the model records a successful
registration in the native set. -/
def add_watch (st : WatchState) (path : FsPath) : WatchState :=
  let normalized := path
  let st1 :=
    if normalized ∈ st.watchedFiles then st
    else { st with
            native := sinsert normalized st.native,
            watchedFiles := normalized :: st.watchedFiles }
  let directory := parentPath normalized
  let count := dirCount st1.watchedDirs directory
  let st2 :=
    if count = 0 then { st1 with native := sinsert directory st1.native }
    else st1
  { st2 with watchedDirs := aset st2.watchedDirs directory (count + 1) }

/-- MainWindow._remove_watch (lines 2559-2578). The decremented count is an
Int because the source computes get(directory, 0) - 1, which can be -1. -/
def remove_watch (st : WatchState) (path : FsPath) : WatchState :=
  let normalized := path
  let st1 :=
    if normalized ∈ st.watchedFiles then
      { st with
          native := sremove normalized st.native,
          watchedFiles := sremove normalized st.watchedFiles }
    else st
  let directory := parentPath normalized
  let count : Int := (dirCount st1.watchedDirs directory : Int) - 1
  if count ≤ 0 then
    { st1 with
        watchedDirs := apop st1.watchedDirs directory,
        native := sremove directory st1.native }
  else
    { st1 with watchedDirs := aset st1.watchedDirs directory count.toNat }

/-- An opaque fitz document handle; the tracking table owns it. -/
abbrev Doc := Nat

/-- One entry produced by directory.iterdir() in _find_identity_match:
its path, the result of the suffix test entry.suffix.lower() == ".pdf",
and the result of FileIdentity.from_path(entry) (none when stat fails). -/
structure DirEntry where
  path : FsPath
  isPdf : Bool
  ident : Option FileIdentity
deriving DecidableEq

/-- External calls performed by the recovery pipeline, in order: a
document.close() call, a fitz open attempt (_create_pdf_document, a content
read), or a successful directory listing (directory.iterdir()). -/
inductive Ev where
  | closeDoc (d : Doc)
  | createDoc (p : FsPath)
  | dirScan (p : FsPath)
deriving DecidableEq

/-- The filesystem and document-layer environment, frozen for one recovery
attempt: directory listings (none models a missing directory or an OSError
from iterdir), fitz open outcomes (none models an open failure), and stat
outcomes used to refresh a stored fingerprint. -/
structure Fs where
  dirEntries : FsPath → Option (List DirEntry)
  createDoc : FsPath → Option Doc
  statIdentity : FsPath → Option FileIdentity

/-- The loop of MainWindow._find_identity_match (lines 2646-2665): walk the
entries in iteration order with the running fallback; return the entry
itself on the first fingerprint match, else remember the first size+mtime
candidate as fallback. -/
def find_identity_match_scan (identity : FileIdentity) (exclude : FsPath) :
    List DirEntry → Option FsPath → Option FsPath
  | [], fallback => fallback
  | entry :: rest, fallback =>
    if entry.path = exclude ∨ entry.isPdf = false then
      find_identity_match_scan identity exclude rest fallback
    else
      match entry.ident with
      | none => find_identity_match_scan identity exclude rest fallback
      | some candidate_identity =>
        if identity.matches candidate_identity then some entry.path
        else if fallback = none ∧ identity.size = candidate_identity.size ∧
            |identity.mtime_ns - candidate_identity.mtime_ns| ≤ 1000000 then
          find_identity_match_scan identity exclude rest (some entry.path)
        else
          find_identity_match_scan identity exclude rest fallback

/-- MainWindow._find_identity_match (lines 2632-2665). A missing directory
or a listing failure yields none without a scan event. -/
def find_identity_match (fs : Fs) (directory : FsPath)
    (identity : FileIdentity) (exclude : FsPath) : Option FsPath × List Ev :=
  match fs.dirEntries directory with
  | none => (none, [])
  | some entries =>
    (find_identity_match_scan identity exclude entries none,
     [Ev.dirScan directory])

/-- The MainWindow state touched by the reconciliation core: _documents
(path to fitz handle), _tab_items (modelled as the set of paths that have a
tab item), _doc_identities (last-known fingerprints), _tab_recency together
with _recency_counter, and the watch bookkeeping. Pure UI state (list rows,
labels, current selection, sort order, last save directory) is out of
scope per the specification and not modelled. -/
structure AppState where
  documents : List (FsPath × Doc)
  tabItems : List FsPath
  docIdentities : List (FsPath × FileIdentity)
  tabRecency : List (FsPath × Nat)
  recencyCounter : Nat
  watch : WatchState
deriving DecidableEq

/-- MainWindow._mark_document_recent (lines 2484-2493): bump the counter
and store it under the path key. The recent-sort tab move is UI only. -/
def mark_document_recent (st : AppState) (path : FsPath) : AppState :=
  { st with
      recencyCounter := st.recencyCounter + 1,
      tabRecency := aset st.tabRecency path (st.recencyCounter + 1) }

/-- MainWindow._update_document_identity (lines 2580-2584): refresh the
stored fingerprint from a live stat, keeping the old entry on stat failure. -/
def update_document_identity (fs : Fs) (st : AppState) (path : FsPath) :
    AppState :=
  let normalized := path
  match fs.statIdentity normalized with
  | some identity =>
    { st with docIdentities := aset st.docIdentities normalized identity }
  | none => st

/-- MainWindow._cleanup_document_path (lines 2694-2706): pop the document
(closing it when requested), drop its tab item, fingerprint and recency
entries, and remove its watch. -/
def cleanup_document_path (st : AppState) (path : FsPath)
    (closeDocument : Bool) : AppState × List Ev :=
  let normalized := path
  let document := alookup st.documents normalized
  let evs :=
    match document with
    | some d => if closeDocument then [Ev.closeDoc d] else []
    | none => []
  let st1 :=
    { st with
        documents := apop st.documents normalized,
        tabItems := sremove normalized st.tabItems,
        docIdentities := apop st.docIdentities normalized,
        tabRecency := apop st.tabRecency normalized }
  ({ st1 with watch := remove_watch st1.watch normalized }, evs)

/-- MainWindow._add_document_to_ui (lines 2087-2144), restricted to the
modelled state: guard against an already-tracked path, store the handle and
the tab item, add the watch, refresh the fingerprint, and mark the document
recent (the source calls _mark_document_recent twice). Row placement,
selection, sorting, labels and the last-save-directory update are UI only. -/
def add_document_to_ui (fs : Fs) (st : AppState) (document : Doc)
    (normalized : FsPath) : AppState :=
  if (alookup st.documents normalized).isSome then st
  else
    let st1 :=
      { st with
          documents := aset st.documents normalized document,
          tabItems := sinsert normalized st.tabItems }
    let st2 := { st1 with watch := add_watch st1.watch normalized }
    let st3 := update_document_identity fs st2 normalized
    let st4 := mark_document_recent st3 normalized
    mark_document_recent st4 normalized

/-- MainWindow.open_document_from_path (lines 2066-2084), restricted to the
modelled state: a no-op when the path is already tracked (only the tab
selection changes), otherwise a fitz open attempt followed by
_add_document_to_ui on success. -/
def open_document_from_path (fs : Fs) (st : AppState) (path : FsPath) :
    AppState × List Ev :=
  let normalized := path
  if (alookup st.documents normalized).isSome then (st, [])
  else
    match fs.createDoc normalized with
    | none => (st, [Ev.createDoc normalized])
    | some document =>
      (add_document_to_ui fs st document normalized, [Ev.createDoc normalized])

/-- MainWindow._handle_document_renamed (lines 2667-2692): guard on the tab
item and the document, then either discard the old entry when the new path
is already tracked (a collision), or clean up the old entry (closing its
handle) and open the document again at the new path. -/
def handle_document_renamed (fs : Fs) (st : AppState)
    (old_path new_path : FsPath) : AppState × List Ev :=
  let item := old_path ∈ st.tabItems
  let document := alookup st.documents old_path
  if ¬item ∨ document = none then (st, [])
  else
    let normalized_new := new_path
    if (alookup st.documents normalized_new).isSome then
      cleanup_document_path st old_path true
    else
      let r1 := cleanup_document_path st old_path true
      let r2 := open_document_from_path fs r1.1 normalized_new
      (r2.1, r1.2 ++ r2.2)

/-- MainWindow._attempt_recover_renamed_file (lines 2612-2630): bail out
when the path is no longer tracked or has no stored fingerprint, scan the
parent directory for an identity match, and re-associate on a match that
differs from the tracked path. -/
def attempt_recover_renamed_file (fs : Fs) (st : AppState)
    (old_path : FsPath) : AppState × List Ev :=
  let normalized := old_path
  if alookup st.documents normalized = none then (st, [])
  else
    match alookup st.docIdentities normalized with
    | none => (st, [])
    | some identity =>
      let directory := parentPath normalized
      let scan := find_identity_match fs directory identity normalized
      match scan.1 with
      | none => (st, scan.2)
      | some candidate =>
        let candidate_normalized := candidate
        if candidate_normalized = normalized then (st, scan.2)
        else
          let r := handle_document_renamed fs st normalized candidate_normalized
          (r.1, scan.2 ++ r.2)

/-- A decoded JSON value, as produced by json.loads. -/
inductive Json where
  | null
  | boolean (b : Bool)
  | number (n : Int)
  | str (s : String)
  | arr (items : List Json)
  | obj (fields : List (String × Json))

/-- isinstance(item, str) filter body: keep a string element as itself. -/
def Json.asString : Json → Option String
  | Json.str s => some s
  | _ => none

/-- SingleInstanceHost._read_socket (lines 250-270) from the point where the
payload bytes are decoded: a json.loads failure (empty data, bad UTF-8 or
bad JSON, modelled as the none input) is replaced by an empty list, a
non-list payload contributes no paths, string elements of a list payload
are kept in order, and open_requested is emitted (the some result) exactly
when the path list is non-empty. -/
def read_socket (decoded : Option Json) : Option (List String) :=
  let payload :=
    match decoded with
    | some v => v
    | none => Json.arr []
  let paths :=
    match payload with
    | Json.arr items => items.filterMap Json.asString
    | _ => []
  if paths = [] then none else some paths

/-- Socket effects of forward_paths_to_primary: the connectToServer plus
waitForConnected attempt, and the payload write attempt. -/
inductive FwEv where
  | connectAttempt
  | writeAttempt
deriving DecidableEq

/-- Outcomes of the socket layer for one forwarding call: whether
waitForConnected(500) succeeds, whether socket.write returns -1, and
whether the flush/disconnect sequence raises. -/
structure SocketEnv where
  connectOk : Bool
  writeFailed : Bool
  raised : Bool

/-- forward_paths_to_primary (lines 273-292): an empty serialized list
returns False before any socket is created; otherwise connect (False on
timeout), write the payload (False on a -1 write or an exception), and
return True after the flush/close sequence. -/
def forward_paths_to_primary (env : SocketEnv) (paths : List String) :
    Bool × List FwEv :=
  let serialized := paths
  if serialized = [] then (false, [])
  else if env.connectOk = false then (false, [FwEv.connectAttempt])
  else if env.writeFailed then (false, [FwEv.connectAttempt, FwEv.writeAttempt])
  else if env.raised then (false, [FwEv.connectAttempt, FwEv.writeAttempt])
  else (true, [FwEv.connectAttempt, FwEv.writeAttempt])

/-- Specification-side matcher for the amended C2: the first entry in
iteration order that survives the exclusion and suffix filters and whose
fingerprint matches under either rule, with no preference between the
inode+device rule and the size+mtime rule. -/
def first_either_match (identity : FileIdentity) (exclude : FsPath) :
    List DirEntry → Option FsPath
  | [] => none
  | entry :: rest =>
    if entry.path ≠ exclude ∧ entry.isPdf = true ∧
        (entry.ident.any fun cid => identity.matches cid) = true then
      some entry.path
    else first_either_match identity exclude rest

/-- The fingerprint-match rule exactly as the specification words it (claim
C3): inode and device both non-zero and equal, or size equal with mtime_ns
within one millisecond. Stated from the spec, to be compared with
FileIdentity.matches. -/
def spec_matches_rule (a b : FileIdentity) : Prop :=
  (a.inode ≠ 0 ∧ b.inode ≠ 0 ∧ a.device ≠ 0 ∧ b.device ≠ 0 ∧
      a.inode = b.inode ∧ a.device = b.device) ∨
    (a.size = b.size ∧ |a.mtime_ns - b.mtime_ns| ≤ 1000000)

/-- Tracked fingerprint used in the concrete C2 scenario. -/
def idC2 : FileIdentity := ⟨1, 11, 1000, 0⟩

/-- A candidate that matches idC2 only by the size+mtime rule. -/
def identWeakC2 : FileIdentity := ⟨2, 22, 1000, 500000⟩

/-- A candidate that matches idC2 by the inode+device rule. -/
def identStrongC2 : FileIdentity := ⟨1, 11, 5000, 999999999⟩

/-- Filesystem for the C2 scenario: the docs directory lists the weak
size+mtime candidate before the strong inode+device candidate. -/
def fsC2 : Fs :=
  { dirEntries := fun d =>
      if d = ["docs"] then
        some [{ path := ["docs", "c.pdf"], isPdf := true, ident := some identWeakC2 },
              { path := ["docs", "b.pdf"], isPdf := true, ident := some identStrongC2 }]
      else none,
    createDoc := fun _ => none,
    statIdentity := fun _ => none }

/-- Watch state for the C5 witness: directory d already has count 3. -/
def wSt5 : WatchState := ⟨[], [(["d"], 3)], [["d"]]⟩

/-- Watch state for the C6 counterexample: one watched file d/q, its
directory with count 1. -/
def cSt6 : WatchState := ⟨[["d", "q"]], [(["d"], 1)], [["d", "q"], ["d"]]⟩

/-- Watch state for the C6 witness: two watched files in d, count 2. -/
def wSt6 : WatchState :=
  ⟨[["d", "q"], ["d", "r"]], [(["d"], 2)], [["d", "q"], ["d", "r"], ["d"]]⟩

/-- An environment in which every filesystem and document operation fails;
used with states that never reach it. -/
def fsNone : Fs := ⟨fun _ => none, fun _ => none, fun _ => none⟩

/-- The empty application state. -/
def stEmpty : AppState := ⟨[], [], [], [], 0, ⟨[], [], []⟩⟩

/-- Fingerprint of the tracked document in the concrete C1 scenario. -/
def idC1 : FileIdentity := ⟨1, 11, 1000, 0⟩

/-- Filesystem for the C1 scenario: docs/a.pdf has been renamed to
docs/b.pdf, which still carries the same fingerprint; opening docs/b.pdf
yields the fresh handle 8. -/
def fsC1 : Fs :=
  { dirEntries := fun d =>
      if d = ["docs"] then
        some [{ path := ["docs", "b.pdf"], isPdf := true, ident := some idC1 }]
      else none,
    createDoc := fun p => if p = ["docs", "b.pdf"] then some 8 else none,
    statIdentity := fun p => if p = ["docs", "b.pdf"] then some idC1 else none }

/-- Application state for the C1 scenario: docs/a.pdf is tracked with
handle 7, fingerprint idC1, a tab item, and a watch. -/
def stC1 : AppState :=
  { documents := [(["docs", "a.pdf"], 7)],
    tabItems := [["docs", "a.pdf"]],
    docIdentities := [(["docs", "a.pdf"], idC1)],
    tabRecency := [],
    recencyCounter := 0,
    watch := { watchedFiles := [["docs", "a.pdf"]],
               watchedDirs := [(["docs"], 1)],
               native := [["docs", "a.pdf"], ["docs"]] } }

theorem alookup_aset_self {α β : Type} [DecidableEq α]
    (m : List (α × β)) (k : α) (v : β) : alookup (aset m k v) k = some v := by
  simp [aset, alookup]

theorem alookup_apop_self {α β : Type} [DecidableEq α]
    (m : List (α × β)) (k : α) : alookup (apop m k) k = none := by
  induction m with
  | nil => rfl
  | cons e rest ih =>
    by_cases h : e.1 = k
    · simp only [apop, if_pos h]
      exact ih
    · simp only [apop, if_neg h, alookup, if_neg h]
      exact ih

theorem alookup_apop_ne {α β : Type} [DecidableEq α]
    (m : List (α × β)) {k k' : α} (h : k' ≠ k) :
    alookup (apop m k) k' = alookup m k' := by
  induction m with
  | nil => rfl
  | cons e rest ih =>
    by_cases he : e.1 = k
    · have hne : e.1 ≠ k' := fun hh => h (he ▸ hh).symm
      simp only [apop, if_pos he, alookup, if_neg hne]
      exact ih
    · simp only [apop, if_neg he, alookup]
      by_cases he' : e.1 = k'
      · simp [he']
      · simp only [if_neg he']
        exact ih

theorem alookup_aset_ne {α β : Type} [DecidableEq α]
    (m : List (α × β)) {k k' : α} (v : β) (h : k' ≠ k) :
    alookup (aset m k v) k' = alookup m k' := by
  simp only [aset, alookup, if_neg (fun hh : k = k' => h hh.symm)]
  exact alookup_apop_ne m h

theorem mem_of_mem_apop {α β : Type} [DecidableEq α]
    {m : List (α × β)} {k : α} {e : α × β} (h : e ∈ apop m k) : e ∈ m := by
  induction m with
  | nil => exact absurd h (List.not_mem_nil e)
  | cons f rest ih =>
    by_cases hf : f.1 = k
    · simp only [apop, if_pos hf] at h
      exact List.mem_cons_of_mem _ (ih h)
    · simp only [apop, if_neg hf, List.mem_cons] at h
      rcases h with h | h
      · exact h ▸ List.mem_cons_self _ _
      · exact List.mem_cons_of_mem _ (ih h)

theorem mem_sremove_iff {α : Type} [DecidableEq α]
    {x y : α} {l : List α} : y ∈ sremove x l ↔ y ∈ l ∧ y ≠ x := by
  induction l with
  | nil => simp [sremove]
  | cons z rest ih =>
    by_cases hz : z = x
    · simp only [sremove, if_pos hz, ih, List.mem_cons]
      constructor
      · exact fun ⟨h1, h2⟩ => ⟨Or.inr h1, h2⟩
      · rintro ⟨h1 | h1, h2⟩
        · exact absurd (h1.trans hz) h2
        · exact ⟨h1, h2⟩
    · simp only [sremove, if_neg hz, List.mem_cons, ih]
      constructor
      · rintro (h | ⟨h1, h2⟩)
        · exact ⟨Or.inl h, h ▸ hz⟩
        · exact ⟨Or.inr h1, h2⟩
      · rintro ⟨h1 | h1, h2⟩
        · exact Or.inl h1
        · exact Or.inr ⟨h1, h2⟩

theorem mem_sinsert_iff {α : Type} [DecidableEq α]
    {x y : α} {l : List α} : y ∈ sinsert x l ↔ y = x ∨ y ∈ l := by
  by_cases h : x ∈ l
  · simp only [sinsert, if_pos h]
    exact ⟨Or.inr, fun hy => hy.elim (fun he => he ▸ h) id⟩
  · simp [sinsert, if_neg h]

theorem matches_iff (a b : FileIdentity) :
    a.matches b = true ↔
      (a.inode ≠ 0 ∧ b.inode ≠ 0 ∧ a.inode = b.inode ∧ a.device = b.device) ∨
        (a.size = b.size ∧ |a.mtime_ns - b.mtime_ns| ≤ 1000000) := by
  simp only [FileIdentity.matches]
  split_ifs with h1 h2
  · simp only [Bool.and_eq_true, decide_eq_true_eq] at h1
    simp only [true_iff]
    exact Or.inl ⟨h1.1.1.1, h1.1.1.2, h1.1.2, h1.2⟩
  · simp only [Bool.and_eq_true, decide_eq_true_eq] at h1
    constructor
    · intro hf
      exact hf.elim
    · rintro (⟨hx1, hx2, hx3, hx4⟩ | ⟨hx1, hx2⟩)
      · exact absurd ⟨⟨⟨hx1, hx2⟩, hx3⟩, hx4⟩ h1
      · exact absurd hx1 h2
  · simp only [Bool.and_eq_true, decide_eq_true_eq] at h1
    push_neg at h2
    simp only [decide_eq_true_eq]
    constructor
    · exact fun hm => Or.inr ⟨h2, hm⟩
    · rintro (⟨hx1, hx2, hx3, hx4⟩ | ⟨hx1, hx2⟩)
      · exact absurd ⟨⟨⟨hx1, hx2⟩, hx3⟩, hx4⟩ h1
      · exact hx2

theorem matches_of_size_mtime {a b : FileIdentity}
    (hs : a.size = b.size) (hm : |a.mtime_ns - b.mtime_ns| ≤ 1000000) :
    a.matches b = true := (matches_iff a b).2 (Or.inr ⟨hs, hm⟩)

theorem watchedFiles_add_watch (st : WatchState) (p : FsPath) :
    (add_watch st p).watchedFiles =
      if p ∈ st.watchedFiles then st.watchedFiles else p :: st.watchedFiles := by
  unfold add_watch
  by_cases h : p ∈ st.watchedFiles <;> simp only [if_pos, if_neg, h, ite_true,
    ite_false, if_true, if_false] <;> split_ifs <;> rfl

theorem mem_watchedFiles_add_watch (st : WatchState) (p : FsPath) :
    p ∈ (add_watch st p).watchedFiles := by
  rw [watchedFiles_add_watch]
  split_ifs with h
  · exact h
  · exact List.mem_cons_self _ _

theorem dirCount_add_watch_self (st : WatchState) (p : FsPath) :
    dirCount (add_watch st p).watchedDirs (parentPath p) =
      dirCount st.watchedDirs (parentPath p) + 1 := by
  unfold add_watch
  by_cases h : p ∈ st.watchedFiles <;>
    by_cases h2 : dirCount st.watchedDirs (parentPath p) = 0 <;>
      simp [h, h2, dirCount, alookup_aset_self]

theorem add_watch_already (st : WatchState) (p : FsPath)
    (hf : p ∈ st.watchedFiles)
    (hd : dirCount st.watchedDirs (parentPath p) ≠ 0) :
    add_watch st p =
      { st with watchedDirs := (aset st.watchedDirs (parentPath p)
          (dirCount st.watchedDirs (parentPath p) + 1)) } := by
  unfold add_watch
  simp [hf, hd]

theorem add_watch_native_dir_present (st : WatchState) (p : FsPath)
    (hd : dirCount st.watchedDirs (parentPath p) ≠ 0) :
    (add_watch st p).native =
      if p ∈ st.watchedFiles then st.native else sinsert p st.native := by
  unfold add_watch
  by_cases hf : p ∈ st.watchedFiles <;> simp [hf, hd]

theorem watchedFiles_remove_watch (st : WatchState) (p : FsPath) :
    (remove_watch st p).watchedFiles =
      if p ∈ st.watchedFiles then sremove p st.watchedFiles
      else st.watchedFiles := by
  unfold remove_watch
  by_cases h : p ∈ st.watchedFiles <;> simp only [if_pos, if_neg, h, ite_true,
    ite_false, if_true, if_false] <;> split_ifs <;> rfl

theorem not_mem_watchedFiles_remove_watch (st : WatchState) (p : FsPath) :
    p ∉ (remove_watch st p).watchedFiles := by
  rw [watchedFiles_remove_watch]
  split_ifs with h
  · intro hc
    exact (mem_sremove_iff.1 hc).2 rfl
  · exact h

theorem watchedDirs_remove_watch (st : WatchState) (p : FsPath) :
    (remove_watch st p).watchedDirs =
      if (dirCount st.watchedDirs (parentPath p) : Int) - 1 ≤ 0 then
        apop st.watchedDirs (parentPath p)
      else
        aset st.watchedDirs (parentPath p)
          ((dirCount st.watchedDirs (parentPath p) : Int) - 1).toNat := by
  unfold remove_watch
  by_cases h : p ∈ st.watchedFiles <;> simp [h] <;> split_ifs <;> rfl

theorem native_remove_watch_dir_kept (st : WatchState) (p : FsPath)
    (hd : 1 < dirCount st.watchedDirs (parentPath p)) :
    (remove_watch st p).native =
      if p ∈ st.watchedFiles then sremove p st.native else st.native := by
  unfold remove_watch
  have hcond : ¬((dirCount st.watchedDirs (parentPath p) : Int) - 1 ≤ 0) := by
    omega
  by_cases h : p ∈ st.watchedFiles <;> simp [h, hcond]

/-- C3 counterexample: with both devices zero, equal non-zero inodes,
different sizes and mtimes more than 1 ms apart, FileIdentity.matches is
true although the rule stated by the claim (inode and device both non-zero
and equal, or size+mtime) is false: the source never checks the device for
zero. -/
theorem C3_counterexample :
    FileIdentity.matches ⟨0, 5, 1, 0⟩ ⟨0, 5, 2, 5000000⟩ = true ∧
      ¬spec_matches_rule ⟨0, 5, 1, 0⟩ ⟨0, 5, 2, 5000000⟩ := by
  constructor
  · decide
  · intro h
    rcases h with ⟨_, _, h3, _⟩ | ⟨h1, _⟩
    · exact h3 rfl
    · exact absurd h1 (by decide)

/-- C3 (corrected): FileIdentity.matches a b is true exactly when either
the inodes are both non-zero and equal and the devices are equal (the
device may be zero), or the sizes are equal and the mtimes differ by at
most 1,000,000 nanoseconds. -/
theorem C3_matches_characterization (a b : FileIdentity) :
    a.matches b = true ↔
      (a.inode ≠ 0 ∧ b.inode ≠ 0 ∧ a.inode = b.inode ∧ a.device = b.device) ∨
        (a.size = b.size ∧ |a.mtime_ns - b.mtime_ns| ≤ 1000000) :=
  matches_iff a b

/-- C4 counterexample: two fingerprints with identical devices and
identical (zero) inodes but different sizes do not match; the inode rule in
the source additionally requires the inodes to be non-zero. -/
theorem C4_counterexample :
    FileIdentity.device ⟨1, 0, 10, 0⟩ = FileIdentity.device ⟨1, 0, 11, 99000000⟩ ∧
      FileIdentity.inode ⟨1, 0, 10, 0⟩ = FileIdentity.inode ⟨1, 0, 11, 99000000⟩ ∧
      FileIdentity.matches ⟨1, 0, 10, 0⟩ ⟨1, 0, 11, 99000000⟩ = false := by
  decide

/-- C4 (corrected): for fingerprints with identical devices and identical
non-zero inodes, FileIdentity.matches is true regardless of their size and
mtime fields. -/
theorem C4_inode_device_match (a b : FileIdentity) (hdev : a.device = b.device)
    (hino : a.inode = b.inode) (hnz : a.inode ≠ 0) : a.matches b = true :=
  (matches_iff a b).2 (Or.inl ⟨hnz, hino ▸ hnz, hino, hdev⟩)

/-- C4 witness: identical device 1 and inode 5 match despite different
sizes and mtimes. -/
theorem C4_witness :
    FileIdentity.matches ⟨1, 5, 10, 0⟩ ⟨1, 5, 99, 123456789⟩ = true :=
  C4_inode_device_match ⟨1, 5, 10, 0⟩ ⟨1, 5, 99, 123456789⟩ rfl rfl (by decide)

/-- C9: FileIdentity.matches is symmetric. -/
theorem C9_matches_symmetric (a b : FileIdentity) :
    a.matches b = b.matches a := by
  rw [Bool.eq_iff_iff, matches_iff, matches_iff]
  constructor
  · rintro (⟨h1, h2, h3, h4⟩ | ⟨h1, h2⟩)
    · exact Or.inl ⟨h2, h1, h3.symm, h4.symm⟩
    · exact Or.inr ⟨h1.symm, by rwa [abs_sub_comm]⟩
  · rintro (⟨h1, h2, h3, h4⟩ | ⟨h1, h2⟩)
    · exact Or.inl ⟨h2, h1, h3.symm, h4.symm⟩
    · exact Or.inr ⟨h1.symm, by rwa [abs_sub_comm]⟩

/-- C2 counterexample: the docs listing of fsC2 holds a size+mtime-only
candidate (docs/c.pdf) before an inode+device candidate (docs/b.pdf); the
scan returns docs/c.pdf, not the inode+device match the claim requires,
because the first branch of the loop already accepts a size+mtime match. -/
theorem C2_counterexample :
    (idC2.inode ≠ identWeakC2.inode ∧ idC2.size = identWeakC2.size ∧
        |idC2.mtime_ns - identWeakC2.mtime_ns| ≤ 1000000) ∧
      (idC2.inode ≠ 0 ∧ identStrongC2.inode ≠ 0 ∧
        idC2.inode = identStrongC2.inode ∧ idC2.device = identStrongC2.device) ∧
      (find_identity_match fsC2 ["docs"] idC2 ["docs", "a.pdf"]).1 =
        some ["docs", "c.pdf"] ∧
      (["docs", "c.pdf"] : FsPath) ≠ ["docs", "b.pdf"] := by
  refine ⟨by decide, by decide, ?_, by decide⟩
  rfl

/-- C2 (corrected): the scan has no preference for the inode+device rule:
it returns the first eligible entry in iteration order whose fingerprint
matches under either rule, and the size+mtime fallback accumulator is never
consulted (a size+mtime candidate already matches in the first branch). -/
theorem C2_first_match_wins (identity : FileIdentity) (exclude : FsPath)
    (entries : List DirEntry) :
    find_identity_match_scan identity exclude entries none =
      first_either_match identity exclude entries := by
  induction entries with
  | nil => rfl
  | cons entry rest ih =>
    obtain ⟨epath, epdf, eident⟩ := entry
    by_cases hex : epath = exclude
    · simpa [find_identity_match_scan, first_either_match, hex] using ih
    · cases epdf
      · simpa [find_identity_match_scan, first_either_match, hex] using ih
      · cases eident with
        | none =>
          simpa [find_identity_match_scan, first_either_match, hex,
            Option.any] using ih
        | some cid =>
          cases hm : identity.matches cid
          · have hcontra : ¬(identity.size = cid.size ∧
                |identity.mtime_ns - cid.mtime_ns| ≤ 1000000) := by
              rintro ⟨h1, h2⟩
              rw [matches_of_size_mtime h1 h2] at hm
              exact absurd hm (by decide)
            simpa [find_identity_match_scan, first_either_match, hex, hm,
              hcontra, Option.any] using ih
          · simp [find_identity_match_scan, first_either_match, hex, hm,
              Option.any]

/-- C5 counterexample: adding the same file path a second time raises the
owning directory's reference count from 1 to 2, although the claim says the
count increases only on the first add of that path; _add_watch increments
the count unconditionally on every call. -/
theorem C5_counterexample :
    dirCount (add_watch (add_watch ⟨[], [], []⟩ ["d", "f"])
        ["d", "f"]).watchedDirs (parentPath ["d", "f"]) = 2 ∧
      dirCount (add_watch (⟨[], [], []⟩ : WatchState)
        ["d", "f"]).watchedDirs (parentPath ["d", "f"]) = 1 := by
  decide

/-- C5 (corrected): a second add of the same file path registers nothing
new with the native watcher and leaves the watched-file set unchanged, and
the native directory watch is registered only when the prior count is zero;
however the directory reference count increments on every add, the second
one included. -/
theorem C5_add_watch_partial_idempotence (st : WatchState) (p : FsPath) :
    (add_watch (add_watch st p) p).native = (add_watch st p).native ∧
      (add_watch (add_watch st p) p).watchedFiles =
        (add_watch st p).watchedFiles ∧
      dirCount (add_watch (add_watch st p) p).watchedDirs (parentPath p) =
        dirCount (add_watch st p).watchedDirs (parentPath p) + 1 ∧
      (dirCount st.watchedDirs (parentPath p) ≠ 0 →
        (add_watch st p).native =
          if p ∈ st.watchedFiles then st.native else sinsert p st.native) := by
  have hmem := mem_watchedFiles_add_watch st p
  have hcnt := dirCount_add_watch_self st p
  have hnz : dirCount (add_watch st p).watchedDirs (parentPath p) ≠ 0 := by
    rw [hcnt]; exact Nat.succ_ne_zero _
  have hsecond := add_watch_already (add_watch st p) p hmem hnz
  refine ⟨?_, ?_, ?_, fun hd => add_watch_native_dir_present st p hd⟩
  · rw [hsecond]
  · rw [hsecond]
  · rw [hsecond]
    simp [dirCount, alookup_aset_self]

/-- C5 witness: with directory d already at count 3, adding d/f (not yet
watched) registers only the file path natively. -/
theorem C5_witness :
    dirCount wSt5.watchedDirs (parentPath ["d", "f"]) ≠ 0 ∧
      (add_watch wSt5 ["d", "f"]).native =
        (if (["d", "f"] : FsPath) ∈ wSt5.watchedFiles then wSt5.native
         else sinsert ["d", "f"] wSt5.native) :=
  ⟨by decide, (C5_add_watch_partial_idempotence wSt5 ["d", "f"]).2.2.2 (by decide)⟩

/-- C6 counterexample: with d/q watched and directory d at count 1,
removing the unwatched path d/p is not a no-op: the directory entry and the
native directory watch are dropped, contradicting the claim that removing
an unwatched path changes nothing. -/
theorem C6_counterexample :
    (["d", "p"] : FsPath) ∉ cSt6.watchedFiles ∧
      remove_watch cSt6 ["d", "p"] ≠ cSt6 := by
  decide

/-- C6 (corrected): removal never stores a non-positive directory count
(the entry is deleted instead), removing an unwatched path leaves the
watched-file set unchanged, and while the stored count exceeds 1 the native
set only loses the file path and the directory count drops by exactly one;
a removal whose decremented count reaches zero, including one for an
unwatched path, deletes the directory entry and its native watch. -/
theorem C6_remove_watch_properties (st : WatchState) (p : FsPath) :
    ((∀ e ∈ st.watchedDirs, 1 ≤ e.2) →
      ∀ e ∈ (remove_watch st p).watchedDirs, 1 ≤ e.2) ∧
      (p ∉ st.watchedFiles →
        (remove_watch st p).watchedFiles = st.watchedFiles) ∧
      (1 < dirCount st.watchedDirs (parentPath p) →
        (remove_watch st p).native =
          (if p ∈ st.watchedFiles then sremove p st.native else st.native) ∧
        dirCount (remove_watch st p).watchedDirs (parentPath p) =
          dirCount st.watchedDirs (parentPath p) - 1) := by
  refine ⟨?_, ?_, fun hd => ⟨native_remove_watch_dir_kept st p hd, ?_⟩⟩
  · intro hpos e he
    rw [watchedDirs_remove_watch] at he
    split_ifs at he with hc
    · exact hpos e (mem_of_mem_apop he)
    · rcases List.mem_cons.1 he with he | he
      · rw [he]
        omega
      · exact hpos e (mem_of_mem_apop he)
  · intro hnf
    rw [watchedFiles_remove_watch, if_neg hnf]
  · rw [watchedDirs_remove_watch]
    have hc : ¬((dirCount st.watchedDirs (parentPath p) : Int) - 1 ≤ 0) := by
      omega
    rw [if_neg hc]
    simp only [dirCount, alookup_aset_self, Option.getD_some]
    omega

/-- C6 witness: directory d at count 2, removing the unwatched path d/x
keeps the watched files, keeps the native set, and drops the count to 1. -/
theorem C6_witness :
    (∀ e ∈ (remove_watch wSt6 ["d", "x"]).watchedDirs, 1 ≤ e.2) ∧
      (remove_watch wSt6 ["d", "x"]).watchedFiles = wSt6.watchedFiles ∧
      (remove_watch wSt6 ["d", "x"]).native =
        (if (["d", "x"] : FsPath) ∈ wSt6.watchedFiles
         then sremove ["d", "x"] wSt6.native else wSt6.native) ∧
      dirCount (remove_watch wSt6 ["d", "x"]).watchedDirs
          (parentPath ["d", "x"]) =
        dirCount wSt6.watchedDirs (parentPath ["d", "x"]) - 1 :=
  ⟨(C6_remove_watch_properties wSt6 ["d", "x"]).1 (by decide),
   (C6_remove_watch_properties wSt6 ["d", "x"]).2.1 (by decide),
   ((C6_remove_watch_properties wSt6 ["d", "x"]).2.2 (by decide)).1,
   ((C6_remove_watch_properties wSt6 ["d", "x"]).2.2 (by decide)).2⟩

/-- C7: a recovery attempt whose target path is no longer a key of the
tracked-document table returns immediately: the state (document table,
identity map, watch bookkeeping) is unchanged and no external call — in
particular no directory scan — is performed. -/
theorem C7_recovery_idempotent (fs : Fs) (st : AppState) (p : FsPath)
    (h : alookup st.documents p = none) :
    attempt_recover_renamed_file fs st p = (st, []) := by
  unfold attempt_recover_renamed_file
  simp [h]

/-- C7 witness: on the empty state every attempt is a no-op. -/
theorem C7_witness :
    alookup stEmpty.documents ["docs", "a.pdf"] = none ∧
      attempt_recover_renamed_file fsNone stEmpty ["docs", "a.pdf"] =
        (stEmpty, []) :=
  ⟨rfl, C7_recovery_idempotent fsNone stEmpty ["docs", "a.pdf"] rfl⟩

/-- C8: the accept-loop payload handling emits no open-requested
notification for an undecodable payload, a non-array payload, or an array
without string elements, and emits exactly the decoded list for a non-empty
array of strings. -/
theorem C8_read_socket_behavior (decoded : Option Json) :
    (decoded = none → read_socket decoded = none) ∧
      (∀ v : Json, decoded = some v → (∀ items : List Json, v ≠ Json.arr items) →
        read_socket decoded = none) ∧
      (∀ items : List Json, decoded = some (Json.arr items) →
        (∀ j ∈ items, Json.asString j = none) → read_socket decoded = none) ∧
      (∀ ss : List String, decoded = some (Json.arr (ss.map Json.str)) →
        ss ≠ [] → read_socket decoded = some ss) := by
  refine ⟨?_, ?_, ?_, ?_⟩
  · intro h
    rw [h]
    rfl
  · intro v hv harr
    rw [hv]
    cases v with
    | arr items => exact absurd rfl (harr items)
    | null => rfl
    | boolean b => rfl
    | number n => rfl
    | str s => rfl
    | obj fields => rfl
  · intro items hv hnone
    rw [hv]
    unfold read_socket
    have hnil : items.filterMap Json.asString = [] :=
      List.filterMap_eq_nil_iff.2 hnone
    simp [hnil]
  · intro ss hv hne
    rw [hv]
    unfold read_socket
    have hmap : ∀ l : List String, (l.map Json.str).filterMap Json.asString = l := by
      intro l
      induction l with
      | nil => rfl
      | cons s rest ihs =>
        rw [List.map_cons, List.filterMap_cons]
        simp only [Json.asString]
        rw [ihs]
    simp [hmap ss, hne]

/-- C8 witness: a one-element array of strings is forwarded verbatim; an
array of non-strings is dropped. -/
theorem C8_witness :
    read_socket (some (Json.arr (List.map Json.str ["/tmp/x.pdf"]))) =
      some ["/tmp/x.pdf"] ∧
      read_socket (some (Json.arr [Json.number 3])) = none :=
  ⟨(C8_read_socket_behavior _).2.2.2 ["/tmp/x.pdf"] rfl (by decide),
   (C8_read_socket_behavior _).2.2.1 [Json.number 3] rfl
     (by intro j hj; simp at hj; rw [hj]; rfl)⟩

/-- C10: forwarding an empty path list returns false with no connection
attempt (the socket is never created), and a true result implies the list
was non-empty and waitForConnected succeeded, after an actual connection
attempt. -/
theorem C10_forward_requires_connection (env : SocketEnv)
    (paths : List String) :
    (paths = [] → forward_paths_to_primary env paths = (false, [])) ∧
      ((forward_paths_to_primary env paths).1 = true →
        paths ≠ [] ∧ env.connectOk = true ∧
          FwEv.connectAttempt ∈ (forward_paths_to_primary env paths).2) := by
  constructor
  · intro h
    unfold forward_paths_to_primary
    simp [h]
  · intro h
    unfold forward_paths_to_primary at h ⊢
    by_cases hp : paths = []
    · rw [if_pos hp] at h
      exact absurd h (by decide)
    · rw [if_neg hp] at h ⊢
      refine ⟨hp, ?_, ?_⟩
      · by_cases hc : env.connectOk = false
        · rw [if_pos hc] at h
          exact absurd h (by decide)
        · cases hcv : env.connectOk
          · exact absurd hcv hc
          · rfl
      · by_cases hc : env.connectOk = false
        · rw [if_pos hc] at h
          exact absurd h (by decide)
        · rw [if_neg hc]
          split_ifs <;> simp

/-- C10 witness: an empty list returns false with no events; forwarding one
path in a healthy environment connects. -/
theorem C10_witness :
    forward_paths_to_primary ⟨true, false, false⟩ [] = (false, []) ∧
      ((["/tmp/x.pdf"] : List String) ≠ [] ∧
        SocketEnv.connectOk ⟨true, false, false⟩ = true ∧
        FwEv.connectAttempt ∈
          (forward_paths_to_primary ⟨true, false, false⟩ ["/tmp/x.pdf"]).2) :=
  ⟨(C10_forward_requires_connection ⟨true, false, false⟩ []).1 rfl,
   (C10_forward_requires_connection ⟨true, false, false⟩ ["/tmp/x.pdf"]).2 rfl⟩

/-- C1 counterexample: in the concrete rename scenario (docs/a.pdf tracked
with handle 7, renamed to docs/b.pdf), recovery re-keys the table to
docs/b.pdf but with a freshly opened handle 8, after closing handle 7 and
re-reading the file (a fitz open) — the claim that the open document handle
is neither closed nor reopened is false. -/
theorem C1_counterexample :
    alookup stC1.documents ["docs", "a.pdf"] = some 7 ∧
      alookup (attempt_recover_renamed_file fsC1 stC1
          ["docs", "a.pdf"]).1.documents ["docs", "b.pdf"] = some 8 ∧
      Ev.closeDoc 7 ∈ (attempt_recover_renamed_file fsC1 stC1
          ["docs", "a.pdf"]).2 ∧
      Ev.createDoc ["docs", "b.pdf"] ∈ (attempt_recover_renamed_file fsC1 stC1
          ["docs", "a.pdf"]).2 ∧
      (8 : Doc) ≠ 7 := by
  decide

/-- C1 (corrected): when a scheduled recovery finds a match at a new path
for a tracked document, re-association moves the path key, the watch and
the stored fingerprint to the new path, but not the handle: the old entry
is cleaned up with its handle closed, and the document is reopened at the
new path with the freshly created handle. -/
theorem C1_reassociation (fs : Fs) (st : AppState) (oldPath newPath : FsPath)
    (d0 dNew : Doc) (ident0 identNew : FileIdentity)
    (hdoc : alookup st.documents oldPath = some d0)
    (hitem : oldPath ∈ st.tabItems)
    (hident : alookup st.docIdentities oldPath = some ident0)
    (hscan : (find_identity_match fs (parentPath oldPath) ident0 oldPath).1 =
      some newPath)
    (hne : newPath ≠ oldPath)
    (hnew : alookup st.documents newPath = none)
    (hcreate : fs.createDoc newPath = some dNew)
    (hstat : fs.statIdentity newPath = some identNew) :
    alookup (attempt_recover_renamed_file fs st oldPath).1.documents newPath =
        some dNew ∧
      alookup (attempt_recover_renamed_file fs st oldPath).1.documents oldPath =
        none ∧
      Ev.closeDoc d0 ∈ (attempt_recover_renamed_file fs st oldPath).2 ∧
      Ev.createDoc newPath ∈ (attempt_recover_renamed_file fs st oldPath).2 ∧
      alookup (attempt_recover_renamed_file fs st oldPath).1.docIdentities
          newPath = some identNew ∧
      newPath ∈ (attempt_recover_renamed_file fs st oldPath).1.watch.watchedFiles ∧
      oldPath ∉ (attempt_recover_renamed_file fs st oldPath).1.watch.watchedFiles := by
  have hne' : oldPath ≠ newPath := Ne.symm hne
  have hnew1 : alookup (apop st.documents oldPath) newPath = none := by
    rw [alookup_apop_ne st.documents hne]
    exact hnew
  have happly : attempt_recover_renamed_file fs st oldPath =
      ((handle_document_renamed fs st oldPath newPath).1,
        (find_identity_match fs (parentPath oldPath) ident0 oldPath).2 ++
          (handle_document_renamed fs st oldPath newPath).2) := by
    simp [attempt_recover_renamed_file, hdoc, hident, hscan, hne]
  have hhandle : handle_document_renamed fs st oldPath newPath =
      ((open_document_from_path fs (cleanup_document_path st oldPath true).1
          newPath).1,
        (cleanup_document_path st oldPath true).2 ++
          (open_document_from_path fs (cleanup_document_path st oldPath true).1
            newPath).2) := by
    simp [handle_document_renamed, hitem, hdoc, hnew]
  have hS1d : (cleanup_document_path st oldPath true).1.documents =
      apop st.documents oldPath := rfl
  have hS1i : (cleanup_document_path st oldPath true).1.docIdentities =
      apop st.docIdentities oldPath := rfl
  have hS1w : (cleanup_document_path st oldPath true).1.watch =
      remove_watch st.watch oldPath := rfl
  have hcleansnd : (cleanup_document_path st oldPath true).2 =
      [Ev.closeDoc d0] := by
    simp [cleanup_document_path, hdoc]
  have hopen : open_document_from_path fs
      (cleanup_document_path st oldPath true).1 newPath =
        (add_document_to_ui fs (cleanup_document_path st oldPath true).1 dNew
          newPath, [Ev.createDoc newPath]) := by
    simp [open_document_from_path, hS1d, hnew1, hcreate]
  have hF : add_document_to_ui fs (cleanup_document_path st oldPath true).1
      dNew newPath =
      { documents := aset (cleanup_document_path st oldPath true).1.documents
          newPath dNew,
        tabItems := sinsert newPath
          (cleanup_document_path st oldPath true).1.tabItems,
        docIdentities := aset
          (cleanup_document_path st oldPath true).1.docIdentities newPath
          identNew,
        tabRecency := aset (aset
          (cleanup_document_path st oldPath true).1.tabRecency newPath
          ((cleanup_document_path st oldPath true).1.recencyCounter + 1))
          newPath
          ((cleanup_document_path st oldPath true).1.recencyCounter + 1 + 1),
        recencyCounter :=
          (cleanup_document_path st oldPath true).1.recencyCounter + 1 + 1,
        watch := add_watch (cleanup_document_path st oldPath true).1.watch
          newPath } := by
    simp [add_document_to_ui, update_document_identity, mark_document_recent,
      hS1d, hnew1, hstat]
  rw [happly, hhandle, hcleansnd, hopen, hF]
  refine ⟨?_, ?_, ?_, ?_, ?_, ?_, ?_⟩
  · exact alookup_aset_self _ _ _
  · rw [alookup_aset_ne _ dNew hne', hS1d, alookup_apop_self]
  · simp
  · simp
  · exact alookup_aset_self _ _ _
  · exact mem_watchedFiles_add_watch _ _
  · rw [hS1w, watchedFiles_add_watch]
    split_ifs with h
    · exact not_mem_watchedFiles_remove_watch st.watch oldPath
    · intro hc
      rcases List.mem_cons.1 hc with hc | hc
      · exact hne' hc
      · exact not_mem_watchedFiles_remove_watch st.watch oldPath hc

/-- C1 witness: the corrected statement evaluated on the concrete
docs/a.pdf to docs/b.pdf rename scenario. -/
theorem C1_witness :
    alookup (attempt_recover_renamed_file fsC1 stC1
        ["docs", "a.pdf"]).1.documents ["docs", "b.pdf"] = some 8 ∧
      alookup (attempt_recover_renamed_file fsC1 stC1
          ["docs", "a.pdf"]).1.documents ["docs", "a.pdf"] = none ∧
      Ev.closeDoc 7 ∈ (attempt_recover_renamed_file fsC1 stC1
          ["docs", "a.pdf"]).2 ∧
      Ev.createDoc ["docs", "b.pdf"] ∈ (attempt_recover_renamed_file fsC1 stC1
          ["docs", "a.pdf"]).2 ∧
      alookup (attempt_recover_renamed_file fsC1 stC1
          ["docs", "a.pdf"]).1.docIdentities ["docs", "b.pdf"] = some idC1 ∧
      (["docs", "b.pdf"] : FsPath) ∈ (attempt_recover_renamed_file fsC1 stC1
          ["docs", "a.pdf"]).1.watch.watchedFiles ∧
      (["docs", "a.pdf"] : FsPath) ∉ (attempt_recover_renamed_file fsC1 stC1
          ["docs", "a.pdf"]).1.watch.watchedFiles :=
  C1_reassociation fsC1 stC1 ["docs", "a.pdf"] ["docs", "b.pdf"] 7 8 idC1 idC1
    rfl (by decide) rfl (by decide) (by decide) rfl rfl rfl
